import Mathlib

/-!
Verification of the carousel navigation / pagination logic of stash-stream.

The embedded code is the `Carousel` component of
`src/src/components/Carousel.tsx` (its `hasNextItem` / `hasPreviousItem`
flags and its `nextItem` / `previousItem` / `onQueryChange` handlers), the
single-page `VideoCarousel` variants of `src/src/carousel.tsx` and
`src/src/components/Carousel.tsx`, and the debounced search-query
commit path.  JavaScript numbers are embedded as `Int` (all arithmetic in
the embedded code stays within exact small-integer range); item lists are
abstracted by their length, which is the only attribute the navigation
logic reads.
-/

namespace StashStream

/-- State of the paged `Carousel` component (`src/src/components/Carousel.tsx`,
lines 309-408): `numItems` is `items.length`, `page` / `totalPages` are the
props of the same names, `index` and `direction` are the two `useState`
cells (`direction` is `1` for forward, `-1` for backward, as in the source's
`setDirection(1)` / `setDirection(-1)`). -/
structure CarouselState where
  numItems : Nat
  page : Int
  totalPages : Int
  index : Int
  direction : Int
  deriving Repr, DecidableEq

/-- Observable side effects of a navigation operation: a page fetch issued to
the route (recording the page number the route will fetch) and an
`onItemChange(index)` notification. -/
inductive Effect where
  | fetchPage (p : Int)
  | itemChange (i : Int)
  deriving Repr, DecidableEq

/-- Number of page fetches among a list of effects. -/
def fetchCount (es : List Effect) : Nat :=
  (es.filter fun e => match e with
    | .fetchPage _ => true
    | .itemChange _ => false).length

/-- Line 323 of `src/src/components/Carousel.tsx`:
`const hasNextItem = index < items.length - 1 || page < totalPages - 1`. -/
def hasNextItem (s : CarouselState) : Bool :=
  s.index < (s.numItems : Int) - 1 || s.page < s.totalPages - 1

/-- Line 324 of `src/src/components/Carousel.tsx`:
`const hasPreviousItem = index !== 0 || page > 1`. -/
def hasPreviousItem (s : CarouselState) : Bool :=
  s.index != 0 || s.page > 1

/-- Modelled from the spec: `PER_PAGE` is imported from `src/routes/carousel`,
a file of this repository that is not under `src/`; the spec fixes the page
size as a client-known constant, "size ≤ pageSize, pageSize fixed, e.g. 40". -/
def PER_PAGE : Int := 40

/-- Modelled from the spec: the route's `onNextPage` callback (defined in
`src/routes/carousel`, not under `src/`) fetches page `pageNumber + 1` for the
current query and replaces the Page wholesale ("transition to `FetchingNext`,
request Page Store to fetch `pageNumber + 1` ...; on success, replace Page").
`fetched` is the length of the newly fetched page's item list. -/
def applyNextPage (s : CarouselState) (fetched : Nat) : CarouselState :=
  { s with page := s.page + 1, numItems := fetched }

/-- Modelled from the spec: the route's `onPreviousPage` callback (defined in
`src/routes/carousel`, not under `src/`) fetches page `pageNumber - 1` and
replaces the Page ("transition to `FetchingPrevious`, fetch `pageNumber - 1`;
on success, replace Page"). -/
def applyPreviousPage (s : CarouselState) (fetched : Nat) : CarouselState :=
  { s with page := s.page - 1, numItems := fetched }

/-- Lines 341-354 of `src/src/components/Carousel.tsx` (`nextItem`), with the
route's `onNextPage` success applied in place of the `await`:

```
if (!hasNextItem) return
let nextIndex = index + 1
if (nextIndex === items.length - 1 && page < totalPages - 1) {
  await onNextPage(); nextIndex = 0
}
setIndex(nextIndex); setDirection(1); onItemChange && onItemChange(nextIndex)
```

Returns the post-state together with the effects issued. -/
def nextItem (fetched : Nat) (s : CarouselState) : CarouselState × List Effect :=
  if !hasNextItem s then (s, [])
  else
    let nextIndex := s.index + 1
    if nextIndex = (s.numItems : Int) - 1 ∧ s.page < s.totalPages - 1 then
      ({ applyNextPage s fetched with index := 0, direction := 1 },
        [.fetchPage (s.page + 1), .itemChange 0])
    else
      ({ s with index := nextIndex, direction := 1 }, [.itemChange nextIndex])

/-- Lines 356-371 of `src/src/components/Carousel.tsx` (`previousItem`), with
the route's `onPreviousPage` success applied in place of the `await`:

```
if (!hasPreviousItem) return
let nextIndex = index - 1
if (nextIndex < 0) { await onPreviousPage(); nextIndex = PER_PAGE - 1 }
setIndex(nextIndex); setDirection(-1); onItemChange && onItemChange(nextIndex)
``` -/
def previousItem (fetched : Nat) (s : CarouselState) : CarouselState × List Effect :=
  if !hasPreviousItem s then (s, [])
  else
    let nextIndex := s.index - 1
    if nextIndex < 0 then
      ({ applyPreviousPage s fetched with index := PER_PAGE - 1, direction := -1 },
        [.fetchPage (s.page - 1), .itemChange (PER_PAGE - 1)])
    else
      ({ s with index := nextIndex, direction := -1 }, [.itemChange nextIndex])

/-- Lines 376-378 of `src/src/components/Carousel.tsx`:
`const onQueryChange = () => { setIndex(0) }`. -/
def onQueryChange (s : CarouselState) : CarouselState :=
  { s with index := 0 }

/-- Lines 397-402 of `src/src/components/Carousel.tsx`: the "No results"
terminal block renders exactly when `items?.length === 0`. -/
def showNoResults (s : CarouselState) : Bool :=
  s.numItems == 0

/-- Written from the spec's words, for comparison with `hasNextItem` (claim
C2): "`hasNext = index < items.length - 1 || pageNumber < totalPages`". -/
def specHasNext (s : CarouselState) : Bool :=
  s.index < (s.numItems : Int) - 1 || s.page < s.totalPages

/-- Written from the spec's words, for comparison with `hasPreviousItem`
(claim C2): "`hasPrevious = index > 0 || pageNumber > 1`". -/
def specHasPrevious (s : CarouselState) : Bool :=
  s.index > 0 || s.page > 1

/-!
Interleaving model for overlapping `nextItem` / `previousItem` calls
(claim C3).  In the source, `nextItem` and `previousItem` are `async`
functions that suspend at `await onNextPage()` / `await onPreviousPage()`.
A call executes synchronously up to the `await` against the state captured
at invocation time (the React render closure: `setIndex` has not run yet
while the fetch is pending), so a second call that arrives before the fetch
resolves reads the same `index`, `page`, `totalPages` and `items.length` as
the first.  `RunState` carries the component state plus the suspended
continuations; `fetches` counts every page fetch issued so far.
-/

/-- System state for the interleaving model: the component state, the number
of `nextItem` calls suspended at `await onNextPage()`, the number of
`previousItem` calls suspended at `await onPreviousPage()`, and the total
number of page fetches issued. -/
structure RunState where
  st : CarouselState
  pendingNext : Nat
  pendingPrev : Nat
  fetches : Nat
  deriving Repr, DecidableEq

/-- Events of the interleaving model: invoking `nextItem`, invoking
`previousItem`, and a pending fetch resolving with a page of `fetched`
items (resolutions of suspended next-page fetches are delivered before
suspended previous-page ones; the claims only use runs where at most one
kind is pending). -/
inductive NavEvent where
  | callNext
  | callPrev
  | resolveFetch (fetched : Nat)
  deriving Repr, DecidableEq

/-- One step of the interleaving model.  `callNext` / `callPrev` run the
source's handler up to the `await` (issuing a fetch and suspending when the
boundary branch is taken, else completing synchronously); `resolveFetch`
runs the code after the `await` of one suspended call:
`nextIndex = 0; setIndex(nextIndex); setDirection(1)` for a next-page fetch,
`nextIndex = PER_PAGE - 1; setIndex(nextIndex); setDirection(-1)` for a
previous-page fetch. -/
def navStep (r : RunState) : NavEvent → RunState
  | .callNext =>
    if !hasNextItem r.st then r
    else if r.st.index + 1 = (r.st.numItems : Int) - 1 ∧ r.st.page < r.st.totalPages - 1 then
      { r with pendingNext := r.pendingNext + 1, fetches := r.fetches + 1 }
    else
      { r with st := { r.st with index := r.st.index + 1, direction := 1 } }
  | .callPrev =>
    if !hasPreviousItem r.st then r
    else if r.st.index - 1 < 0 then
      { r with pendingPrev := r.pendingPrev + 1, fetches := r.fetches + 1 }
    else
      { r with st := { r.st with index := r.st.index - 1, direction := -1 } }
  | .resolveFetch fetched =>
    if r.pendingNext > 0 then
      { r with st := { applyNextPage r.st fetched with index := 0, direction := 1 },
               pendingNext := r.pendingNext - 1 }
    else if r.pendingPrev > 0 then
      { r with st := { applyPreviousPage r.st fetched with index := PER_PAGE - 1, direction := -1 },
               pendingPrev := r.pendingPrev - 1 }
    else r

/-- Run the interleaving model over a list of events. -/
def navRun (r : RunState) : List NavEvent → RunState
  | [] => r
  | e :: es => navRun (navStep r e) es

/-- Number of page fetches in flight in the interleaving model. -/
def inFlight (r : RunState) : Nat :=
  r.pendingNext + r.pendingPrev

/-!
Debounced query commit (claim C9).  Line 118 of
`src/src/components/Carousel.tsx`:
`const debouncedSetQueryInUrl = debounce(setQueryInUrl, 500)`.
-/

/-- Modelled from the spec: the semantics of `lodash.debounce` (a library
dependency whose source is not in this repository) with its default
trailing-edge behaviour, as the spec describes it: "commits ... only after a
quiet interval (500ms in the source) with no further change ... the last
value wins; no commit is ever skipped (trailing-edge debounce)".  The input
is the time-ordered list of `(time, value)` invocations of the debounced
function; the output is the list of `(time, value)` commits: an invocation's
timer is cancelled and re-armed by the next invocation when that one arrives
within `wait`, and fires `wait` after the invocation otherwise. -/
def debounceCommits (wait : Nat) : List (Nat × String) → List (Nat × String)
  | [] => []
  | [(t, v)] => [(t + wait, v)]
  | (t, v) :: (t2, v2) :: rest =>
    if t2 < t + wait then debounceCommits wait ((t2, v2) :: rest)
    else (t + wait, v) :: debounceCommits wait ((t2, v2) :: rest)

/-- A burst: each invocation arrives strictly less than `wait` after the
previous one (the premise of claim C9). -/
def isBurst (wait : Nat) : List (Nat × String) → Bool
  | (t1, _) :: (t2, v2) :: rest => t2 < t1 + wait && isBurst wait ((t2, v2) :: rest)
  | _ => true

/-- Last event of a nonempty event list, given as head plus tail. -/
def lastEvent (e : Nat × String) : List (Nat × String) → Nat × String
  | [] => e
  | e2 :: es => lastEvent e2 es

/-!
Single-page `VideoCarousel` variants (claim C10): the unguarded one in
`src/src/carousel.tsx` (lines 77-87) and the guarded one in
`src/src/components/Carousel.tsx` (lines 627-639).
-/

/-- State of the `VideoCarousel` component: `numVideos` is `videos.length`,
`currentVideoIndex` and `direction` are the `useState` cells. -/
structure VideoState where
  numVideos : Nat
  currentVideoIndex : Int
  direction : Int
  deriving Repr, DecidableEq

/-- Lines 77-80 of `src/src/carousel.tsx` (unguarded variant):
`setCurrentVideoIndex((prevIndex) => (prevIndex + 1) % videos.length);
setDirection(1)`.  (JavaScript `%` agrees with `Int.emod` for the
nonnegative operands the claims use; the unguarded source yields `NaN` on
an empty list, a case no claim exercises.) -/
def nextVideo (s : VideoState) : VideoState :=
  { s with currentVideoIndex := (s.currentVideoIndex + 1) % (s.numVideos : Int),
           direction := 1 }

/-- Lines 82-87 of `src/src/carousel.tsx` (unguarded variant):
`setCurrentVideoIndex((prevIndex) =>
  Math.max(0, (prevIndex - 1 + videos.length) % videos.length));
setDirection(-1)`. -/
def previousVideo (s : VideoState) : VideoState :=
  let i := max 0 ((s.currentVideoIndex - 1 + (s.numVideos : Int)) % (s.numVideos : Int))
  { s with currentVideoIndex := i, direction := -1 }

/-- Lines 627-631 of `src/src/components/Carousel.tsx` (guarded
`VideoCarousel` variant): `if (videos.length === 0) return` before the same
update as the unguarded `nextVideo`. -/
def nextVideoGuarded (s : VideoState) : VideoState :=
  if s.numVideos = 0 then s else nextVideo s

/-- Lines 633-639 of `src/src/components/Carousel.tsx` (guarded
`VideoCarousel` variant): `if (videos.length === 0) return` before the same
update as the unguarded `previousVideo`. -/
def previousVideoGuarded (s : VideoState) : VideoState :=
  if s.numVideos = 0 then s else previousVideo s

/-!
Theorems.
-/

/-- C1, counterexample.  The claim's own instance — `pageNumber = 1`,
`totalPages = 2`, `items.length = 40`, `index = 39` — refutes it: in the
source, `hasNextItem` is `39 < 39 || 1 < 2 - 1`, which is false, so
`nextItem` returns immediately: no fetch is issued, `index` stays `39` and
`page` stays `1`, contradicting "issues exactly one fetch for `pageNumber=2`
and on success `index` becomes `0` and `pageNumber` becomes `2`". -/
theorem c1_counterexample :
    nextItem 40 ⟨40, 1, 2, 39, 1⟩ = (⟨40, 1, 2, 39, 1⟩, []) ∧
    ¬(fetchCount (nextItem 40 ⟨40, 1, 2, 39, 1⟩).2 = 1 ∧
      (nextItem 40 ⟨40, 1, 2, 39, 1⟩).1.index = 0 ∧
      (nextItem 40 ⟨40, 1, 2, 39, 1⟩).1.page = 2) := by
  decide

/-- C1, amended.  The boundary-crossing advance fires one slot early and
under a stricter page guard than the claim states: for every state with
`index + 1 = items.length - 1` and `page < totalPages - 1`, `nextItem`
issues exactly one fetch, for page `page + 1`, and on its success the Page
is replaced (`page` becomes `page + 1`), `index` becomes `0` and
`direction` becomes forward. -/
theorem c1_boundary (s : CarouselState) (f : Nat)
    (hIdx : s.index + 1 = (s.numItems : Int) - 1)
    (hPage : s.page < s.totalPages - 1) :
    fetchCount (nextItem f s).2 = 1 ∧
    (nextItem f s).2 = [.fetchPage (s.page + 1), .itemChange 0] ∧
    (nextItem f s).1.index = 0 ∧
    (nextItem f s).1.direction = 1 ∧
    (nextItem f s).1.page = s.page + 1 := by
  have hn : hasNextItem s = true := by
    simp only [hasNextItem, Bool.or_eq_true, decide_eq_true_eq]
    right
    exact hPage
  simp [nextItem, hn, hIdx, hPage, applyNextPage, fetchCount]

/-- C1, witness for `c1_boundary` at `numItems = 40`, `page = 1`,
`totalPages = 3`, `index = 38`. -/
theorem c1_boundary_witness :
    fetchCount (nextItem 40 ⟨40, 1, 3, 38, 1⟩).2 = 1 ∧
    (nextItem 40 ⟨40, 1, 3, 38, 1⟩).2 = [.fetchPage 2, .itemChange 0] ∧
    (nextItem 40 ⟨40, 1, 3, 38, 1⟩).1.index = 0 ∧
    (nextItem 40 ⟨40, 1, 3, 38, 1⟩).1.direction = 1 ∧
    (nextItem 40 ⟨40, 1, 3, 38, 1⟩).1.page = 2 :=
  c1_boundary ⟨40, 1, 3, 38, 1⟩ 40 (by decide) (by decide)

/-- C2, counterexample.  At `numItems = 40`, `page = 1`, `totalPages = 2`,
`index = 39` the source's `hasNextItem` (`page < totalPages - 1`) is false
while the spec's formula (`pageNumber < totalPages`) is true, so the claimed
equality fails. -/
theorem c2_counterexample :
    hasNextItem ⟨40, 1, 2, 39, 1⟩ = false ∧
    specHasNext ⟨40, 1, 2, 39, 1⟩ = true := by
  decide

/-- C2, amended.  The exposed flags are pure functions of the state with
`hasNextItem = (index < items.length - 1 || page < totalPages - 1)` — the
page disjunct is `page < totalPages - 1`, not `page < totalPages` — and
`hasPreviousItem = (index ≠ 0 || page > 1)`, which for the nonnegative
indices the component produces coincides with `index > 0 || page > 1`. -/
theorem c2_flags (s : CarouselState) (h : 0 ≤ s.index) :
    (hasNextItem s = true ↔
      (s.index < (s.numItems : Int) - 1 ∨ s.page < s.totalPages - 1)) ∧
    (hasPreviousItem s = true ↔ (0 < s.index ∨ 1 < s.page)) := by
  constructor
  · simp [hasNextItem]
  · simp only [hasPreviousItem, Bool.or_eq_true, bne_iff_ne, ne_eq,
      decide_eq_true_eq]
    omega

/-- C2, witness for `c2_flags` at `numItems = 40`, `page = 2`,
`totalPages = 3`, `index = 5`. -/
theorem c2_flags_witness :
    (hasNextItem ⟨40, 2, 3, 5, 1⟩ = true ↔
      ((5 : Int) < (40 : Nat) - 1 ∨ (2 : Int) < 3 - 1)) ∧
    (hasPreviousItem ⟨40, 2, 3, 5, 1⟩ = true ↔ ((0 : Int) < 5 ∨ (1 : Int) < 2)) :=
  c2_flags ⟨40, 2, 3, 5, 1⟩ (by decide)

/-- C4, counterexample.  At `page = 3`, `totalPages = 5`, `index = 17`,
`direction = -1` (backward), the source's `onQueryChange` — which is only
`setIndex(0)` — leaves `direction = -1` and `page = 3`, contradicting the
claimed reset of `direction` to forward and of `pageNumber` to `1`. -/
theorem c4_counterexample :
    ¬((onQueryChange ⟨40, 3, 5, 17, -1⟩).direction = 1 ∧
      (onQueryChange ⟨40, 3, 5, 17, -1⟩).page = 1) := by
  decide

/-- C4, amended.  Committing a new query text resets the carousel's cursor
to `index = 0` and nothing else: the component's `onQueryChange` handler
leaves `direction`, `page` and the item list unchanged (no reset of
`direction` to forward, no page reset and no generation tag inside the
component). -/
theorem c4_query_reset (s : CarouselState) :
    (onQueryChange s).index = 0 ∧
    (onQueryChange s).direction = s.direction ∧
    (onQueryChange s).page = s.page ∧
    (onQueryChange s).numItems = s.numItems := by
  simp [onQueryChange]

/-- C7.  At the collection edges both operations are no-ops: from
`index = 0`, `page = 1`, `previousItem` reports `hasPreviousItem = false`,
issues no fetch and mutates nothing; from `index = items.length - 1`,
`page = totalPages`, `nextItem` issues no fetch and mutates nothing. -/
theorem c7_edges (s : CarouselState) (f : Nat) :
    (s.index = 0 → s.page = 1 →
      hasPreviousItem s = false ∧ previousItem f s = (s, [])) ∧
    (s.index = (s.numItems : Int) - 1 → s.page = s.totalPages →
      nextItem f s = (s, [])) := by
  constructor
  · intro hi hp
    have hprev : hasPreviousItem s = false := by
      simp [hasPreviousItem, hi, hp]
    exact ⟨hprev, by simp [previousItem, hprev]⟩
  · intro hi hp
    have hnext : hasNextItem s = false := by
      simp only [hasNextItem, Bool.or_eq_false_iff, decide_eq_false_iff_not,
        not_lt]
      omega
    simp [nextItem, hnext]

/-- C7, witness for `c7_edges`: retreat at `index = 0`, `page = 1` (with
`totalPages = 2`) and advance at `index = 39`, `page = totalPages = 2`
(with `numItems = 40`). -/
theorem c7_edges_witness :
    (hasPreviousItem ⟨40, 1, 2, 0, 1⟩ = false ∧
      previousItem 40 ⟨40, 1, 2, 0, 1⟩ = (⟨40, 1, 2, 0, 1⟩, [])) ∧
    nextItem 40 ⟨40, 2, 2, 39, 1⟩ = (⟨40, 2, 2, 39, 1⟩, []) :=
  ⟨(c7_edges ⟨40, 1, 2, 0, 1⟩ 40).1 rfl rfl,
   (c7_edges ⟨40, 2, 2, 39, 1⟩ 40).2 (by decide) rfl⟩

/-- C3, counterexample.  From `numItems = 40`, `page = 1`, `totalPages = 3`,
`index = 38`, a first `nextItem` call suspends with one fetch in flight;
a second `nextItem` call arriving before the fetch resolves reads the same
captured state (no `setIndex` has run), is not rejected, and issues a
second fetch: two fetches are then in flight, refuting "a second `advance()`
call is rejected as a no-op, so at most one page fetch is ever in flight". -/
theorem c3_counterexample :
    inFlight (navRun ⟨⟨40, 1, 3, 38, 1⟩, 0, 0, 0⟩ [.callNext]) = 1 ∧
    navStep (navRun ⟨⟨40, 1, 3, 38, 1⟩, 0, 0, 0⟩ [.callNext]) .callNext ≠
      navRun ⟨⟨40, 1, 3, 38, 1⟩, 0, 0, 0⟩ [.callNext] ∧
    inFlight (navRun ⟨⟨40, 1, 3, 38, 1⟩, 0, 0, 0⟩ [.callNext, .callNext]) = 2 := by
  decide

/-- C3, amended.  The component has no reentrancy guard: from any state
whose `nextItem` takes the boundary branch, two `advance()` calls with no
resolution in between both issue fetches — the second is not rejected, the
fetch count rises by two and two page fetches are in flight at once. -/
theorem c3_no_guard (r : RunState)
    (hIdx : r.st.index + 1 = (r.st.numItems : Int) - 1)
    (hPage : r.st.page < r.st.totalPages - 1) :
    (navRun r [.callNext, .callNext]).fetches = r.fetches + 2 ∧
    inFlight (navRun r [.callNext, .callNext]) = inFlight r + 2 := by
  have hn : hasNextItem r.st = true := by
    simp only [hasNextItem, Bool.or_eq_true, decide_eq_true_eq]
    right
    exact hPage
  have hstep : ∀ t : RunState, t.st = r.st →
      navStep t .callNext =
        { t with pendingNext := t.pendingNext + 1, fetches := t.fetches + 1 } := by
    intro t ht
    simp [navStep, ht, hn, hIdx, hPage]
  have h1 := hstep r rfl
  have h2 := hstep (navStep r .callNext) (by rw [h1])
  simp only [navRun]
  rw [h2, h1]
  simp [inFlight]
  omega

/-- C3, witness for `c3_no_guard` at `numItems = 40`, `page = 1`,
`totalPages = 3`, `index = 38`, no fetch initially in flight. -/
theorem c3_no_guard_witness :
    (navRun ⟨⟨40, 1, 3, 38, 1⟩, 0, 0, 0⟩ [.callNext, .callNext]).fetches = 0 + 2 ∧
    inFlight (navRun ⟨⟨40, 1, 3, 38, 1⟩, 0, 0, 0⟩ [.callNext, .callNext]) =
      inFlight ⟨⟨40, 1, 3, 38, 1⟩, 0, 0, 0⟩ + 2 :=
  c3_no_guard ⟨⟨40, 1, 3, 38, 1⟩, 0, 0, 0⟩ (by decide) (by decide)

/-- C5.  Backward boundary crossing: from every state with `index = 0` and
`page > 1`, `previousItem` issues exactly one fetch, for page `page - 1`,
and on its success the Page is replaced (`page` becomes `page - 1`),
`index` becomes the constant `PER_PAGE - 1` and `direction` becomes
backward. -/
theorem c5_retreat_boundary (s : CarouselState) (f : Nat)
    (hIdx : s.index = 0) (hPage : 1 < s.page) :
    fetchCount (previousItem f s).2 = 1 ∧
    (previousItem f s).2 = [.fetchPage (s.page - 1), .itemChange (PER_PAGE - 1)] ∧
    (previousItem f s).1.index = PER_PAGE - 1 ∧
    (previousItem f s).1.direction = -1 ∧
    (previousItem f s).1.page = s.page - 1 := by
  have hp : hasPreviousItem s = true := by
    simp only [hasPreviousItem, Bool.or_eq_true, bne_iff_ne, ne_eq,
      decide_eq_true_eq]
    right
    exact hPage
  have hneg : s.index - 1 < 0 := by omega
  simp [previousItem, hp, hneg, applyPreviousPage, fetchCount]

/-- C5, witness for `c5_retreat_boundary` at `numItems = 40`, `page = 2`,
`totalPages = 3`, `index = 0`. -/
theorem c5_retreat_boundary_witness :
    fetchCount (previousItem 40 ⟨40, 2, 3, 0, 1⟩).2 = 1 ∧
    (previousItem 40 ⟨40, 2, 3, 0, 1⟩).2 =
      [.fetchPage 1, .itemChange (PER_PAGE - 1)] ∧
    (previousItem 40 ⟨40, 2, 3, 0, 1⟩).1.index = PER_PAGE - 1 ∧
    (previousItem 40 ⟨40, 2, 3, 0, 1⟩).1.direction = -1 ∧
    (previousItem 40 ⟨40, 2, 3, 0, 1⟩).1.page = 1 :=
  c5_retreat_boundary ⟨40, 2, 3, 0, 1⟩ 40 (by decide) (by decide)

/-- C6, counterexample.  At `numItems = 3`, `page = 1`, `totalPages = 3`,
`index = 1` — an index strictly between `0` and `items.length - 1` — the
advance hits the source's early boundary branch (`nextIndex === items.length
- 1 && page < totalPages - 1`): a fetch is issued, and the following retreat
issues another fetch and lands on `PER_PAGE - 1 = 39`, not on the original
index `1`. -/
theorem c6_counterexample :
    ¬(fetchCount (nextItem 40 ⟨3, 1, 3, 1, 1⟩).2 = 0 ∧
      fetchCount (previousItem 40 (nextItem 40 ⟨3, 1, 3, 1, 1⟩).1).2 = 0 ∧
      (previousItem 40 (nextItem 40 ⟨3, 1, 3, 1, 1⟩).1).1.index = 1) := by
  decide

/-- C6, amended.  Local move round-trip, away from the source's early
boundary trigger: for every Page with `items.length > 1` and `index`
strictly between `0` and `items.length - 1`, provided the advance does not
hit the boundary branch (`¬(index + 1 = items.length - 1 ∧ page <
totalPages - 1)`), `nextItem` followed by `previousItem` returns the cursor
to the original index and neither operation issues a fetch. -/
theorem c6_round_trip (s : CarouselState) (f1 f2 : Nat)
    (_hLen : 1 < s.numItems) (h0 : 0 < s.index)
    (hTop : s.index < (s.numItems : Int) - 1)
    (hnb : ¬(s.index + 1 = (s.numItems : Int) - 1 ∧ s.page < s.totalPages - 1)) :
    fetchCount (nextItem f1 s).2 = 0 ∧
    fetchCount (previousItem f2 (nextItem f1 s).1).2 = 0 ∧
    (previousItem f2 (nextItem f1 s).1).1.index = s.index := by
  have hn : hasNextItem s = true := by
    simp only [hasNextItem, Bool.or_eq_true, decide_eq_true_eq]
    left
    exact hTop
  have hstep : nextItem f1 s = ({ s with index := s.index + 1, direction := 1 },
      [.itemChange (s.index + 1)]) := by
    simp [nextItem, hn, hnb]
  have hp : hasPreviousItem ({ s with index := s.index + 1, direction := 1 } :
      CarouselState) = true := by
    simp only [hasPreviousItem, Bool.or_eq_true, bne_iff_ne, ne_eq,
      decide_eq_true_eq]
    left
    omega
  have hpos : ¬(s.index < (0 : Int)) := by omega
  rw [hstep]
  refine ⟨by simp [fetchCount], ?_, ?_⟩
  · simp [previousItem, hp, hpos, fetchCount]
  · simp [previousItem, hp, hpos]

/-- C6, witness for `c6_round_trip` at `numItems = 5`, `page = 1`,
`totalPages = 1`, `index = 1`. -/
theorem c6_round_trip_witness :
    fetchCount (nextItem 5 ⟨5, 1, 1, 1, 1⟩).2 = 0 ∧
    fetchCount (previousItem 5 (nextItem 5 ⟨5, 1, 1, 1, 1⟩).1).2 = 0 ∧
    (previousItem 5 (nextItem 5 ⟨5, 1, 1, 1, 1⟩).1).1.index = 1 :=
  c6_round_trip ⟨5, 1, 1, 1, 1⟩ 5 5 (by decide) (by decide) (by decide)
    (by decide)

/-- C8.  Empty result: a fetch returning zero items yields the Page
`items = []` with the first-page metadata (`page = 1`, `totalPages = 1`,
cursor reset to `0`); on it `hasNextItem` and `hasPreviousItem` are both
false, `nextItem` and `previousItem` change nothing and issue no fetch, and
the component renders the "No results" terminal block. -/
theorem c8_empty (s : CarouselState) (f : Nat)
    (hn : s.numItems = 0) (hi : s.index = 0) (hp : s.page = 1)
    (ht : s.totalPages = 1) :
    hasNextItem s = false ∧ hasPreviousItem s = false ∧
    nextItem f s = (s, []) ∧ previousItem f s = (s, []) ∧
    showNoResults s = true := by
  have hnext : hasNextItem s = false := by
    simp only [hasNextItem, Bool.or_eq_false_iff, decide_eq_false_iff_not,
      not_lt]
    omega
  have hprev : hasPreviousItem s = false := by
    simp [hasPreviousItem, hi, hp]
  refine ⟨hnext, hprev, ?_, ?_, ?_⟩
  · simp [nextItem, hnext]
  · simp [previousItem, hprev]
  · simp [showNoResults, hn]

/-- C8, witness for `c8_empty` at the empty page `⟨0, 1, 1, 0, 1⟩`. -/
theorem c8_empty_witness :
    hasNextItem ⟨0, 1, 1, 0, 1⟩ = false ∧
    hasPreviousItem ⟨0, 1, 1, 0, 1⟩ = false ∧
    nextItem 0 ⟨0, 1, 1, 0, 1⟩ = (⟨0, 1, 1, 0, 1⟩, []) ∧
    previousItem 0 ⟨0, 1, 1, 0, 1⟩ = (⟨0, 1, 1, 0, 1⟩, []) ∧
    showNoResults ⟨0, 1, 1, 0, 1⟩ = true :=
  c8_empty ⟨0, 1, 1, 0, 1⟩ 0 rfl rfl rfl rfl

/-- C9.  Trailing-edge debounce coalescing: for every nonempty burst of
invocations in which each arrives strictly less than `wait` after the
previous one, exactly one commit occurs, it carries the last value of the
burst, and it fires `wait` after the last invocation. -/
theorem c9_debounce (wait : Nat) (e : Nat × String) (es : List (Nat × String))
    (hb : isBurst wait (e :: es) = true) :
    debounceCommits wait (e :: es) =
      [((lastEvent e es).1 + wait, (lastEvent e es).2)] := by
  induction es generalizing e with
  | nil =>
    obtain ⟨t, v⟩ := e
    simp [debounceCommits, lastEvent]
  | cons e2 es ih =>
    obtain ⟨t, v⟩ := e
    obtain ⟨t2, v2⟩ := e2
    simp only [isBurst, Bool.and_eq_true, decide_eq_true_eq] at hb
    simp only [debounceCommits, lastEvent, if_pos hb.1]
    exact ih (t2, v2) hb.2

/-- C9, witness for `c9_debounce`: five text changes 100ms apart with a
500ms quiet interval produce exactly one commit, of the last value, at
`400 + 500 = 900`. -/
theorem c9_debounce_witness :
    debounceCommits 500 [(0, "a"), (100, "b"), (200, "c"), (300, "d"), (400, "e")] =
      [(900, "e")] := by
  have h := c9_debounce 500 (0, "a")
    [(100, "b"), (200, "c"), (300, "d"), (400, "e")] (by decide)
  simpa [lastEvent] using h

/-- C10.  Wrap-around in the single-page `VideoCarousel` variants: for every
nonempty video list, `nextVideo` sets the index to `(index + 1) %
videos.length` — from the last video it wraps to `0` — and `previousVideo`
at index `0` wraps to `videos.length - 1`; the guarded variant leaves the
state unchanged when the list is empty. -/
theorem c10_wrap (s : VideoState) :
    (0 < s.numVideos →
      (nextVideo s).currentVideoIndex =
        (s.currentVideoIndex + 1) % (s.numVideos : Int) ∧
      (s.currentVideoIndex = (s.numVideos : Int) - 1 →
        (nextVideo s).currentVideoIndex = 0) ∧
      (s.currentVideoIndex = 0 →
        (previousVideo s).currentVideoIndex = (s.numVideos : Int) - 1)) ∧
    (s.numVideos = 0 → nextVideoGuarded s = s ∧ previousVideoGuarded s = s) := by
  constructor
  · intro hpos
    have hn : (0 : Int) < (s.numVideos : Int) := by exact_mod_cast hpos
    refine ⟨rfl, ?_, ?_⟩
    · intro hlast
      simp [nextVideo, hlast]
    · intro h0
      have harith : s.currentVideoIndex - 1 + (s.numVideos : Int) =
          (s.numVideos : Int) - 1 := by omega
      have hmod : ((s.numVideos : Int) - 1) % (s.numVideos : Int) =
          (s.numVideos : Int) - 1 :=
        Int.emod_eq_of_lt (by omega) (by omega)
      have hmax : max 0 ((s.numVideos : Int) - 1) = (s.numVideos : Int) - 1 :=
        max_eq_right (by omega)
      simp [previousVideo, harith, hmod, hmax]
  · intro hz
    constructor
    · simp [nextVideoGuarded, hz]
    · simp [previousVideoGuarded, hz]

/-- C10, witness for `c10_wrap`: with three videos, advancing from the last
index `2` wraps to `0`, retreating from index `0` wraps to `2`, and the
guarded variants are no-ops on an empty list. -/
theorem c10_wrap_witness :
    (nextVideo ⟨3, 2, 1⟩).currentVideoIndex = 0 ∧
    (previousVideo ⟨3, 0, 1⟩).currentVideoIndex = 2 ∧
    nextVideoGuarded ⟨0, 0, 1⟩ = ⟨0, 0, 1⟩ ∧
    previousVideoGuarded ⟨0, 0, 1⟩ = ⟨0, 0, 1⟩ := by
  refine ⟨?_, ?_, ?_, ?_⟩
  · exact ((c10_wrap ⟨3, 2, 1⟩).1 (by decide)).2.1 (by decide)
  · have h := ((c10_wrap ⟨3, 0, 1⟩).1 (by decide)).2.2 rfl
    simpa using h
  · exact ((c10_wrap ⟨0, 0, 1⟩).2 rfl).1
  · exact ((c10_wrap ⟨0, 0, 1⟩).2 rfl).2

end StashStream
